import Mathlib

/-!
# CustomUSBReader.c

A shallow embedding of the character-device driver in `src/CustomUSBReader.c`:
the exclusive-open gate (`dev_open`, `dev_release`), the read path (`dev_read`)
and module initialisation (`usb_reader_init`).

Conventions of the embedding.

* The target is LP64 Linux: `int` is 32 bits, `long`, `ssize_t`, `size_t` and
  pointers are 64 bits.  Values are `Int`/`Nat`; every conversion the C code
  performs is written out (`to_int`, `to_long`, `size_sub`).
* The file-scope variables of the driver are the fields of `World`.  `World`
  also carries the user-space memory and a chronological log of the calls the
  driver makes into the kernel.
* Calls into the kernel (`kmalloc`, `filp_open`, `kernel_read`, `copy_to_user`,
  `usb_register`, ...) are not part of the repository.  What they return is
  supplied by an environment record (`ReadEnv`, `InitEnv`), so every theorem
  quantifies over all their outcomes.
* A call either returns a value, waits on the mutex, or performs a store outside
  the block it allocated (`Outcome`).
* The pointer parameters `inodep`, `filep` and `offset` are never used by the
  driver and are omitted.
-/

namespace CustomUSBReader

/-! ## Machine integers -/

/-- Conversion to C `int`: reduction to 32-bit two's complement. -/
def to_int (x : Int) : Int := (x + 2147483648) % 4294967296 - 2147483648

/-- Conversion to C `long` / `ssize_t`: reduction to 64-bit two's complement. -/
def to_long (x : Int) : Int :=
  (x + 9223372036854775808) % 18446744073709551616 - 9223372036854775808

/-- Largest value of `size_t` and of `unsigned long`. -/
def SIZE_MAX : Nat := 18446744073709551615

/-- Largest value of `int`. -/
def INT_MAX : Int := 2147483647

/-- Subtraction in `size_t`: the result is reduced modulo `SIZE_MAX + 1`. -/
def size_sub (a b : Nat) : Nat := (a + (SIZE_MAX + 1) - b % (SIZE_MAX + 1)) % (SIZE_MAX + 1)

/-! ## Linux constants and pointer-encoded errors (`errno-base.h`, `err.h`) -/

/-- Error number: out of memory. -/
def ENOMEM : Int := 12

/-- Error number: bad address. -/
def EFAULT : Int := 14

/-- Error number: device or resource busy. -/
def EBUSY : Int := 16

/-- Error number: no such device. -/
def ENODEV : Int := 19

/-- Largest error number a pointer or an `ssize_t` can encode. -/
def MAX_ERRNO : Nat := 4095

/-- The macro `IS_ERR`: the pointer lies in the last `MAX_ERRNO` addresses. -/
def IS_ERR (ptr : Nat) : Bool := decide (SIZE_MAX + 1 - MAX_ERRNO ≤ ptr)

/-- The macro `PTR_ERR`: the pointer reinterpreted as a `long`. -/
def PTR_ERR (ptr : Nat) : Int := to_long (ptr : Int)

/-- The macro `ERR_PTR`: the `long` error code reinterpreted as a pointer. -/
def ERR_PTR (error : Int) : Nat := (error % 18446744073709551616).toNat

/-! ## State -/

/-- Messages passed to `printk`. -/
inductive Msg where
  | open_device
  | close_device
  | failed_open
  | failed_read
  | read_data
  | init_function
  | register_error
  | failed_major
  deriving DecidableEq, Repr

/-- Calls made by the driver, in the order they are logged. -/
inductive Event where
  | mutex_lock
  | mutex_unlock
  | mutex_init
  | printk (m : Msg)
  | kmalloc (size : Nat) (ptr : Nat)
  | kfree (ptr : Nat)
  | filp_open (file : Nat)
  | kernel_read (file : Nat) (buf : Nat) (count : Nat) (result : Int)
  | filp_close (file : Nat)
  | store (buf : Nat) (index : Int)
  | copy_to_user (dst : Nat) (src : Nat) (n : Nat) (uncopied : Nat)
  | usb_register (result : Int)
  | register_chrdev (result : Int)
  | unregister_chrdev (major : Int)
  | class_create (cls : Nat)
  | class_destroy (cls : Nat)
  | device_create (dev : Nat)
  deriving DecidableEq, Repr

/-- The driver's file-scope variables, user memory and the call log. -/
structure World where
  /-- The variable `static int device_open`. -/
  device_open : Int
  /-- The mutex `my_mutex`; `true` while it is held. -/
  my_mutex : Bool
  /-- The variable `static int major_number`. -/
  major_number : Int
  /-- The variable `usb_reader_class` (a pointer). -/
  usb_reader_class : Nat
  /-- The variable `usb_reader_device` (a pointer). -/
  usb_reader_device : Nat
  /-- User-space memory: the byte stored at each address. -/
  user : Nat → Nat
  /-- Calls made so far, oldest first. -/
  log : List Event

/-- How a call into the driver ends. -/
inductive Outcome where
  /-- The function returned this value. -/
  | ret (v : Int)
  /-- The function waits in `mutex_lock` on a mutex that is held. -/
  | blocked
  /-- The function stored outside the block it allocated. -/
  | fault
  deriving DecidableEq, Repr

/-- The state at module load: `device_open = 0`, mutex free, nothing logged. -/
def World.initial : World :=
  { device_open := 0, my_mutex := false, major_number := 0,
    usb_reader_class := 0, usb_reader_device := 0,
    user := fun _ => 0, log := [] }

/-- Append one call to the log. -/
def emit (e : Event) (w : World) : World := { w with log := w.log ++ [e] }

/-- The call `printk`: it only adds to the log. -/
def printk (m : Msg) (w : World) : World := emit (Event.printk m) w

/-- The call `mutex_lock(&my_mutex)`: `none` when the mutex is held (the caller waits). -/
def mutex_lock (w : World) : Option World :=
  if w.my_mutex then none else some (emit Event.mutex_lock { w with my_mutex := true })

/-- The call `mutex_unlock(&my_mutex)`. -/
def mutex_unlock (w : World) : World := emit Event.mutex_unlock { w with my_mutex := false }

/-! ## The exclusive-open gate -/

/-- The function `dev_open` (lines 138-150). -/
def dev_open (w : World) : Outcome × World :=
  match mutex_lock w with
  | none => (Outcome.blocked, w)
  | some w1 =>
    if w1.device_open ≠ 0 then
      (Outcome.ret (-EBUSY), mutex_unlock w1)
    else
      let w2 := { w1 with device_open := to_int (w1.device_open + 1) }
      let w3 := printk Msg.open_device w2
      (Outcome.ret 0, mutex_unlock w3)

/-- The function `dev_release` (lines 159-166). -/
def dev_release (w : World) : Outcome × World :=
  match mutex_lock w with
  | none => (Outcome.blocked, w)
  | some w1 =>
    let w2 := { w1 with device_open := to_int (w1.device_open - 1) }
    let w3 := printk Msg.close_device w2
    (Outcome.ret 0, mutex_unlock w3)

/-! ## The read path -/

/-- A block returned by `kmalloc`: its size in bytes and its contents. -/
structure KBuf where
  cap : Nat
  mem : Nat → Nat

/-- What the kernel returns to one call of `dev_read`. -/
structure ReadEnv where
  /-- Value returned by `kmalloc`; `0` is `NULL`. -/
  kmalloc_ptr : Nat
  /-- Contents of the fresh block (it is not initialised). -/
  kmalloc_mem : Nat → Nat
  /-- Value returned by `filp_open`: a file pointer or an `ERR_PTR`. -/
  filp_ptr : Nat
  /-- Value returned by `kernel_read` (an `ssize_t`): a byte count or a negative error. -/
  read_result : Int
  /-- The bytes the source delivers, in order. -/
  read_data : Nat → Nat
  /-- Value returned by `copy_to_user`: the number of bytes it could not copy. -/
  uncopied : Nat

/-- Effect of `kernel_read` on the destination block: on success the delivered
bytes occupy the first `read_result` positions; `none` when they do not fit. -/
def kernel_read (env : ReadEnv) (kb : KBuf) : Option KBuf :=
  if env.read_result < 0 then some kb
  else if env.read_result.toNat ≤ kb.cap then
    some { cap := kb.cap,
           mem := fun i => if i < env.read_result.toNat then env.read_data i else kb.mem i }
  else none

/-- The indexed store `kb[index] = v`: `none` when the index is outside the block. -/
def store_byte (kb : KBuf) (index : Int) (v : Nat) : Option KBuf :=
  if 0 ≤ index ∧ index < (kb.cap : Int) then
    some { cap := kb.cap, mem := fun i => if i = index.toNat then v else kb.mem i }
  else none

/-- Effect of `copy_to_user(dst, src, n)` when it reports `uncopied` bytes not
copied: the first `n - uncopied` bytes of `src` are stored at `dst`. -/
def copy_to_user (dst : Nat) (ptr : Nat) (src : KBuf) (n : Nat) (uncopied : Nat) (w : World) :
    World :=
  emit (Event.copy_to_user dst ptr n uncopied)
    { w with user := fun a =>
        if dst ≤ a ∧ a < dst + (n - uncopied) then src.mem (a - dst) else w.user a }

/-- Result of one run of `dev_read`: how it ended, the state it left, and the
kernel block as it was when the run ended (`none` if none was allocated). -/
structure ReadRun where
  result : Outcome
  world : World
  kernel_buffer : Option KBuf

/-- The function `dev_read` (lines 177-218); `buffer` is the user address. -/
def dev_read (buffer : Nat) (len : Nat) (env : ReadEnv) (w : World) : ReadRun :=
  let kernel_buffer := env.kmalloc_ptr
  let w1 := emit (Event.kmalloc len kernel_buffer) w
  if kernel_buffer = 0 then
    { result := Outcome.ret (-ENOMEM), world := w1, kernel_buffer := none }
  else
    let kb0 : KBuf := { cap := len, mem := env.kmalloc_mem }
    let usb_file := env.filp_ptr
    let w2 := emit (Event.filp_open usb_file) w1
    if IS_ERR usb_file then
      let w3 := emit (Event.kfree kernel_buffer) w2
      let w4 := printk Msg.failed_open w3
      { result := Outcome.ret (PTR_ERR usb_file), world := w4, kernel_buffer := some kb0 }
    else
      let w3 := emit (Event.kernel_read usb_file kernel_buffer (size_sub len 1) env.read_result) w2
      match kernel_read env kb0 with
      | none => { result := Outcome.fault, world := w3, kernel_buffer := some kb0 }
      | some kb1 =>
        let bytes_read := to_int env.read_result
        let w4 := emit (Event.filp_close usb_file) w3
        if bytes_read < 0 then
          let w5 := emit (Event.kfree kernel_buffer) w4
          let w6 := printk Msg.failed_read w5
          { result := Outcome.ret (to_long bytes_read), world := w6, kernel_buffer := some kb1 }
        else
          match store_byte kb1 bytes_read 0 with
          | none => { result := Outcome.fault, world := w4, kernel_buffer := some kb1 }
          | some kb2 =>
            let w5 := emit (Event.store kernel_buffer bytes_read) w4
            let w6 := copy_to_user buffer kernel_buffer kb2 bytes_read.toNat env.uncopied w5
            if env.uncopied ≠ 0 then
              let w7 := emit (Event.kfree kernel_buffer) w6
              { result := Outcome.ret (-EFAULT), world := w7, kernel_buffer := some kb2 }
            else
              let w7 := printk Msg.read_data w6
              let w8 := emit (Event.kfree kernel_buffer) w7
              { result := Outcome.ret (to_long bytes_read), world := w8,
                kernel_buffer := some kb2 }

/-! ## Module initialisation -/

/-- What the kernel returns to `usb_reader_init`. -/
structure InitEnv where
  /-- Value returned by `usb_register` (an `int`). -/
  usb_register : Int
  /-- Value returned by `register_chrdev` (an `int`). -/
  register_chrdev : Int
  /-- Value returned by `class_create`: a pointer or an `ERR_PTR`. -/
  class_create : Nat
  /-- Value returned by `device_create`: a pointer or an `ERR_PTR`. -/
  device_create : Nat

/-- The function `usb_reader_init` (lines 235-265). -/
def usb_reader_init (env : InitEnv) (w : World) : Int × World :=
  let w1 := printk Msg.init_function w
  let result := env.usb_register
  let w2 := emit (Event.usb_register result) w1
  if result ≠ 0 then
    let w3 := printk Msg.register_error w2
    (to_int (-result), w3)
  else
    let w3 := emit (Event.register_chrdev env.register_chrdev)
      { w2 with major_number := env.register_chrdev }
    if w3.major_number < 0 then
      let w4 := printk Msg.failed_major w3
      (w4.major_number, w4)
    else
      let w4 := emit (Event.class_create env.class_create)
        { w3 with usb_reader_class := env.class_create }
      if IS_ERR w4.usb_reader_class then
        let w5 := emit (Event.unregister_chrdev w4.major_number) w4
        (to_int (PTR_ERR w5.usb_reader_class), w5)
      else
        let w5 := emit (Event.device_create env.device_create)
          { w4 with usb_reader_device := env.device_create }
        if IS_ERR w5.usb_reader_device then
          let w6 := emit (Event.class_destroy w5.usb_reader_class) w5
          let w7 := emit (Event.unregister_chrdev w6.major_number) w6
          (to_int (PTR_ERR w7.usb_reader_device), w7)
        else
          let w6 := emit Event.mutex_init { w5 with my_mutex := false }
          (0, w6)

/-! ## Sequences of open and release calls -/

/-- One call of a sequence, tagged with the caller that issues it. -/
inductive Call where
  | do_open (caller : Nat)
  | do_release (caller : Nat)
  deriving DecidableEq, Repr

/-- A driver state together with the bookkeeping of a call sequence: the
callers whose `dev_open` returned 0 and who have not released since, and the
outcome of every call so far. -/
structure Session where
  world : World
  holders : List Nat
  results : List Outcome

/-- Run one call and update the bookkeeping from what the driver returned. -/
def step (s : Session) : Call → Session
  | Call.do_open c =>
    let r := dev_open s.world
    if r.1 = Outcome.ret 0 then
      { world := r.2, holders := c :: s.holders, results := s.results ++ [r.1] }
    else
      { world := r.2, holders := s.holders, results := s.results ++ [r.1] }
  | Call.do_release c =>
    let r := dev_release s.world
    { world := r.2, holders := s.holders.erase c, results := s.results ++ [r.1] }

/-- Run a sequence of calls from left to right. -/
def run (s : Session) (calls : List Call) : Session := calls.foldl step s

/-- Every release in the sequence is issued by a caller that holds the device
at that moment: it answers an earlier successful open not yet released. -/
def disciplined (s : Session) : List Call → Bool
  | [] => true
  | Call.do_open c :: rest => disciplined (step s (Call.do_open c)) rest
  | Call.do_release c :: rest =>
    decide (c ∈ s.holders) && disciplined (step s (Call.do_release c)) rest

/-- The session at module load. -/
def Session.initial (w : World) : Session := { world := w, holders := [], results := [] }

/-! ## Sequences of read calls -/

/-- One call of `dev_read`: its arguments and what the kernel returns to it. -/
structure ReadCall where
  buffer : Nat
  len : Nat
  env : ReadEnv

/-- The request and the answers of the kernel are well formed: `len` is a
`size_t` value that is at least 1; `filp_open` returned a 64-bit pointer; the
source read returned an error code in `[-MAX_ERRNO, -1]` or delivered at most
the `len - 1` bytes it was asked for. -/
def ReadOK (len : Nat) (env : ReadEnv) : Prop :=
  1 ≤ len ∧ len ≤ SIZE_MAX ∧ env.filp_ptr ≤ SIZE_MAX ∧
    -(MAX_ERRNO : Int) ≤ env.read_result ∧ env.read_result ≤ (len : Int) - 1

instance (len : Nat) (env : ReadEnv) : Decidable (ReadOK len env) := by
  unfold ReadOK; infer_instance

/-- Run the read calls one after the other; `none` as soon as one of them does
not return. -/
def run_reads (w : World) : List ReadCall → Option World
  | [] => some w
  | c :: rest =>
    match (dev_read c.buffer c.len c.env w).result with
    | Outcome.ret _ => run_reads (dev_read c.buffer c.len c.env w).world rest
    | _ => none

/-- The kernel block of a run of `dev_read` right after `kernel_read` returned:
the delivered bytes first, the rest as `kmalloc` left it. -/
def filled (len : Nat) (env : ReadEnv) : KBuf :=
  { cap := len,
    mem := fun i => if i < env.read_result.toNat then env.read_data i else env.kmalloc_mem i }

/-- The kernel block after the terminator was stored at `bytes_read`. -/
def terminated (len : Nat) (env : ReadEnv) : KBuf :=
  { cap := len,
    mem := fun i =>
      if i = (to_int env.read_result).toNat then 0 else (filled len env).mem i }

/-! ## Classifying logged calls -/

/-- The logged call is a `kmalloc`. -/
def is_kmalloc : Event → Bool
  | Event.kmalloc _ _ => true
  | _ => false

/-- The logged call is a `kfree`. -/
def is_kfree : Event → Bool
  | Event.kfree _ => true
  | _ => false

/-- The logged call is a `filp_open`. -/
def is_filp_open : Event → Bool
  | Event.filp_open _ => true
  | _ => false

/-- The logged call is a `filp_close`. -/
def is_filp_close : Event → Bool
  | Event.filp_close _ => true
  | _ => false

/-! ## Sample inputs -/

/-- A read in which every step succeeds and the source delivers ten bytes. -/
def env_ten : ReadEnv :=
  { kmalloc_ptr := 4096, kmalloc_mem := fun _ => 170, filp_ptr := 8192,
    read_result := 10, read_data := fun i => 65 + i, uncopied := 0 }

/-- A read whose `kmalloc` returns `NULL`. -/
def env_no_memory : ReadEnv := { env_ten with kmalloc_ptr := 0 }

/-- A read whose `filp_open` returns `ERR_PTR(-2)` (no such file). -/
def env_no_source : ReadEnv := { env_ten with filp_ptr := ERR_PTR (-2) }

/-- A read whose `kernel_read` returns `-5` (input/output error). -/
def env_read_error : ReadEnv := { env_ten with read_result := -5 }

/-- A read whose `copy_to_user` leaves four bytes uncopied. -/
def env_copy_fault : ReadEnv := { env_ten with uncopied := 4 }

/-- A read in which the source delivers nothing. -/
def env_empty : ReadEnv := { env_ten with read_result := 0 }

/-- A read of `4294967302` bytes in which the source delivers `4294967301`. -/
def env_huge : ReadEnv := { env_ten with read_result := 4294967301 }

/-- A read of `2147483650` bytes in which the source delivers `2147483648`. -/
def env_two_gib : ReadEnv := { env_ten with read_result := 2147483648 }

/-- The reads used to exercise the round trip: `read(64)` obtaining ten bytes,
then one read per failure path. -/
def sample_reads : List ReadCall :=
  [{ buffer := 1000, len := 64, env := env_ten },
   { buffer := 1000, len := 64, env := env_no_source },
   { buffer := 1000, len := 64, env := env_no_memory },
   { buffer := 1000, len := 64, env := env_read_error },
   { buffer := 1000, len := 64, env := env_copy_fault }]

/-- Module initialisation in which every step succeeds. -/
def init_env_ok : InitEnv :=
  { usb_register := 0, register_chrdev := 240, class_create := 12288, device_create := 16384 }

/-- Module initialisation in which `usb_register` fails with `-ENODEV`. -/
def init_env_no_device : InitEnv := { init_env_ok with usb_register := -ENODEV }

/-- The kernel answers of `usb_reader_init` are well formed: the two `int`
results are `int` values, `usb_register` returns 0 or a negative error code,
and the two pointers are 64-bit values. -/
def InitOK (env : InitEnv) : Prop :=
  -(MAX_ERRNO : Int) ≤ env.usb_register ∧ env.usb_register ≤ 0 ∧
    -(MAX_ERRNO : Int) ≤ env.register_chrdev ∧ env.register_chrdev ≤ INT_MAX ∧
    env.class_create ≤ SIZE_MAX ∧ env.device_create ≤ SIZE_MAX

instance (env : InitEnv) : Decidable (InitOK env) := by
  unfold InitOK; infer_instance

/-- What holds between the calls of a disciplined sequence. -/
def Inv (s : Session) : Prop :=
  s.world.my_mutex = false ∧ (s.holders.length : Int) = s.world.device_open ∧
    s.holders.length ≤ 1 ∧
    ∀ o ∈ s.results, o = Outcome.ret 0 ∨ o = Outcome.ret (-EBUSY)

instance (s : Session) : Decidable (Inv s) := by
  unfold Inv; infer_instance

/-- The sequence used to exercise C1: two callers compete, the loser retries
after the winner released. -/
def sample_calls : List Call :=
  [Call.do_open 1, Call.do_open 2, Call.do_release 1, Call.do_open 2, Call.do_release 2]

/-! ## Lemmas on the machine integers -/

theorem to_int_of_range (x : Int) (h1 : -2147483648 ≤ x) (h2 : x ≤ 2147483647) :
    to_int x = x := by
  unfold to_int; omega

theorem to_long_of_range (x : Int) (h1 : -9223372036854775808 ≤ x)
    (h2 : x ≤ 9223372036854775807) : to_long x = x := by
  unfold to_long; omega

theorem to_int_range (x : Int) : -2147483648 ≤ to_int x ∧ to_int x ≤ 2147483647 := by
  unfold to_int; omega

theorem to_long_to_int (x : Int) : to_long (to_int x) = to_int x := by
  have h := to_int_range x
  exact to_long_of_range _ (by omega) (by omega)

/-- A non-negative `int` obtained from a non-negative value never exceeds it. -/
theorem to_int_le_self (x : Int) (hx : 0 ≤ x) (h : 0 ≤ to_int x) : to_int x ≤ x := by
  unfold to_int at *; omega

/-- An error pointer decodes to an error code in `[-MAX_ERRNO, -1]`. -/
theorem PTR_ERR_range (ptr : Nat) (h : IS_ERR ptr = true) (hptr : ptr ≤ SIZE_MAX) :
    -(MAX_ERRNO : Int) ≤ PTR_ERR ptr ∧ PTR_ERR ptr < 0 := by
  simp [IS_ERR, SIZE_MAX, MAX_ERRNO] at h
  unfold PTR_ERR to_long MAX_ERRNO
  unfold SIZE_MAX at hptr
  omega

/-- Encoding an error code as a pointer and decoding it gives the code back. -/
theorem PTR_ERR_ERR_PTR (e : Int) (h1 : 1 ≤ e) (h2 : e ≤ (MAX_ERRNO : Int)) :
    IS_ERR (ERR_PTR (-e)) = true ∧ PTR_ERR (ERR_PTR (-e)) = -e ∧
      ERR_PTR (-e) ≤ SIZE_MAX := by
  unfold MAX_ERRNO at h2
  have hnn : 0 ≤ (-e) % 18446744073709551616 := Int.emod_nonneg _ (by decide)
  have hcast : ((ERR_PTR (-e) : Nat) : Int) = (-e) % 18446744073709551616 := by
    unfold ERR_PTR; exact Int.toNat_of_nonneg hnn
  have hval : (-e) % 18446744073709551616 = 18446744073709551616 - e := by omega
  refine ⟨?_, ?_, ?_⟩
  · simp only [IS_ERR, SIZE_MAX, MAX_ERRNO, decide_eq_true_eq]; omega
  · unfold PTR_ERR to_long; omega
  · unfold SIZE_MAX; omega

/-! ## The exclusive-open gate: theorems -/

theorem dev_open_free (w : World) (hfree : w.my_mutex = false) (h0 : w.device_open = 0) :
    dev_open w = (Outcome.ret 0,
      { w with device_open := 1, my_mutex := false,
               log := w.log ++ [Event.mutex_lock, Event.printk Msg.open_device,
                                Event.mutex_unlock] }) := by
  simp [dev_open, mutex_lock, mutex_unlock, emit, printk, hfree, h0, to_int]

theorem dev_open_busy (w : World) (hfree : w.my_mutex = false) (h0 : w.device_open ≠ 0) :
    dev_open w = (Outcome.ret (-EBUSY),
      { w with my_mutex := false,
               log := w.log ++ [Event.mutex_lock, Event.mutex_unlock] }) := by
  simp [dev_open, mutex_lock, mutex_unlock, emit, hfree, h0]

theorem dev_release_free (w : World) (hfree : w.my_mutex = false) :
    dev_release w = (Outcome.ret 0,
      { w with device_open := to_int (w.device_open - 1), my_mutex := false,
               log := w.log ++ [Event.mutex_lock, Event.printk Msg.close_device,
                                Event.mutex_unlock] }) := by
  simp [dev_release, mutex_lock, mutex_unlock, emit, printk, hfree]

theorem step_open_inv (s : Session) (c : Nat) (h : Inv s) : Inv (step s (Call.do_open c)) := by
  obtain ⟨hm, hlen, hle, hres⟩ := h
  by_cases h0 : s.world.device_open = 0
  · have hnil : s.holders.length = 0 := by omega
    simp only [step, dev_open_free s.world hm h0, if_true]
    refine ⟨rfl, ?_, ?_, ?_⟩
    · simp [hnil]
    · simp [hnil]
    · intro o ho
      rcases List.mem_append.mp ho with ho | ho
      · exact hres o ho
      · left; simpa using ho
  · have hne : (Outcome.ret (-EBUSY) = Outcome.ret 0) = False := by
      simp [EBUSY]
    simp only [step, dev_open_busy s.world hm h0, hne, if_false]
    refine ⟨rfl, hlen, hle, ?_⟩
    intro o ho
    rcases List.mem_append.mp ho with ho | ho
    · exact hres o ho
    · right; simpa using ho

theorem step_release_inv (s : Session) (c : Nat) (h : Inv s) (hc : c ∈ s.holders) :
    Inv (step s (Call.do_release c)) := by
  obtain ⟨hm, hlen, hle, hres⟩ := h
  have hpos : 0 < s.holders.length := List.length_pos_of_mem hc
  have hone : s.holders.length = 1 := by omega
  have hd : s.world.device_open = 1 := by rw [← hlen, hone]; rfl
  simp only [step, dev_release_free s.world hm]
  refine ⟨rfl, ?_, ?_, ?_⟩
  · simp [List.length_erase_of_mem hc, hone, hd, to_int]
  · simp [List.length_erase_of_mem hc, hone]
  · intro o ho
    rcases List.mem_append.mp ho with ho | ho
    · exact hres o ho
    · left; simpa using ho

theorem run_inv (calls : List Call) :
    ∀ (s : Session), Inv s → disciplined s calls = true → ∀ k, Inv (run s (calls.take k)) := by
  induction calls with
  | nil => intro s hs _ k; simpa [run] using hs
  | cons c rest ih =>
    intro s hs hd k
    cases k with
    | zero => simpa [run] using hs
    | succ k =>
      have hrun : run s ((c :: rest).take (k + 1)) = run (step s c) (rest.take k) := by
        simp [run]
      rw [hrun]
      cases c with
      | do_open c =>
        exact ih _ (step_open_inv s c hs) (by simpa [disciplined] using hd) k
      | do_release c =>
        have hd2 : c ∈ s.holders ∧ disciplined (step s (Call.do_release c)) rest = true := by
          simpa [disciplined] using hd
        exact ih _ (step_release_inv s c hs hd2.1) hd2.2 k

/-- C1. Starting from `device_open = 0` with the mutex free, after every call
of a sequence of `dev_open` and `dev_release` calls in which each release
answers an earlier successful open not yet released, `device_open` is 0 or 1,
at most one caller holds the device, the number of holders is `device_open`,
and every call made so far returned 0 or `-EBUSY`. -/
theorem exclusivity_invariant (w : World) (calls : List Call) (k : Nat)
    (h0 : w.device_open = 0) (hm : w.my_mutex = false)
    (hd : disciplined (Session.initial w) calls = true) :
    ((run (Session.initial w) (calls.take k)).world.device_open = 0 ∨
      (run (Session.initial w) (calls.take k)).world.device_open = 1) ∧
    (run (Session.initial w) (calls.take k)).holders.length ≤ 1 ∧
    ((run (Session.initial w) (calls.take k)).holders.length : Int) =
      (run (Session.initial w) (calls.take k)).world.device_open ∧
    ∀ o ∈ (run (Session.initial w) (calls.take k)).results,
      o = Outcome.ret 0 ∨ o = Outcome.ret (-EBUSY) := by
  have hinit : Inv (Session.initial w) := by
    refine ⟨hm, ?_, ?_, ?_⟩
    · simp [Session.initial, h0]
    · simp [Session.initial]
    · intro o ho; simp [Session.initial] at ho
  obtain ⟨_, hlen, hle, hres⟩ := run_inv calls _ hinit hd k
  refine ⟨?_, hle, hlen, hres⟩
  omega

theorem exclusivity_invariant_witness :
    disciplined (Session.initial World.initial) sample_calls = true ∧
    (run (Session.initial World.initial) (sample_calls.take 4)).holders.length ≤ 1 ∧
    ((run (Session.initial World.initial) (sample_calls.take 4)).world.device_open = 0 ∨
      (run (Session.initial World.initial) (sample_calls.take 4)).world.device_open = 1) :=
  ⟨by decide,
   (exclusivity_invariant World.initial sample_calls 4 rfl rfl (by decide)).2.1,
   (exclusivity_invariant World.initial sample_calls 4 rfl rfl (by decide)).1⟩

/-- C2. With the mutex free on entry, `dev_open` returns 0 and raises
`device_open` by exactly 1 if and only if `device_open` was 0; for every other
value it returns `-EBUSY` at once and changes no variable of the driver (only
the lock and unlock calls are logged); in both cases the mutex is free again
on return and the log gained one `mutex_lock` first and one `mutex_unlock` last. -/
theorem dev_open_contract (w : World) (hfree : w.my_mutex = false) :
    (((dev_open w).1 = Outcome.ret 0 ∧ (dev_open w).2.device_open = w.device_open + 1) ↔
      w.device_open = 0) ∧
    (w.device_open ≠ 0 →
      (dev_open w).1 = Outcome.ret (-EBUSY) ∧
      (dev_open w).2 = { w with log := w.log ++ [Event.mutex_lock, Event.mutex_unlock] }) ∧
    (dev_open w).2.my_mutex = false ∧
    ((dev_open w).2.log = w.log ++ [Event.mutex_lock, Event.mutex_unlock] ∨
     (dev_open w).2.log =
        w.log ++ [Event.mutex_lock, Event.printk Msg.open_device, Event.mutex_unlock]) := by
  by_cases h0 : w.device_open = 0
  · rw [dev_open_free w hfree h0]
    refine ⟨?_, ?_, rfl, Or.inr rfl⟩
    · simp [h0]
    · intro h; exact absurd h0 h
  · rw [dev_open_busy w hfree h0]
    refine ⟨?_, ?_, rfl, Or.inl rfl⟩
    · simp [h0, EBUSY]
    · intro _
      refine ⟨rfl, ?_⟩
      cases w
      simp only at hfree
      subst hfree
      rfl

theorem dev_open_contract_witness :
    World.initial.my_mutex = false ∧
    (dev_open World.initial).1 = Outcome.ret 0 ∧
    (dev_open World.initial).2.my_mutex = false ∧
    (dev_open (dev_open World.initial).2).1 = Outcome.ret (-EBUSY) ∧
    (dev_open (dev_open World.initial).2).2.device_open = 1 := by
  have h1 := dev_open_contract World.initial rfl
  have hw : (dev_open World.initial).2.my_mutex = false := h1.2.2.1
  have hd : (dev_open World.initial).2.device_open = 1 := by decide
  have h2 := (dev_open_contract (dev_open World.initial).2 hw).2.1 (by rw [hd]; decide)
  refine ⟨rfl, (h1.1.mpr rfl).1, hw, h2.1, ?_⟩
  rw [h2.2]
  exact hd

/-! ## The read path: one lemma per path of `dev_read` -/

theorem dev_read_alloc_fail (buffer len : Nat) (env : ReadEnv) (w : World)
    (hp : env.kmalloc_ptr = 0) :
    dev_read buffer len env w =
      { result := Outcome.ret (-ENOMEM),
        world := emit (Event.kmalloc len env.kmalloc_ptr) w,
        kernel_buffer := none } := by
  simp only [dev_read, hp, if_true]

theorem dev_read_open_fail (buffer len : Nat) (env : ReadEnv) (w : World)
    (hp : env.kmalloc_ptr ≠ 0) (hf : IS_ERR env.filp_ptr = true) :
    dev_read buffer len env w =
      { result := Outcome.ret (PTR_ERR env.filp_ptr),
        world := printk Msg.failed_open (emit (Event.kfree env.kmalloc_ptr)
          (emit (Event.filp_open env.filp_ptr) (emit (Event.kmalloc len env.kmalloc_ptr) w))),
        kernel_buffer := some { cap := len, mem := env.kmalloc_mem } } := by
  simp only [dev_read, hp, hf, if_true, if_false]

theorem dev_read_overrun (buffer len : Nat) (env : ReadEnv) (w : World)
    (hp : env.kmalloc_ptr ≠ 0) (hf : IS_ERR env.filp_ptr = false)
    (hk : kernel_read env { cap := len, mem := env.kmalloc_mem } = none) :
    (dev_read buffer len env w).result = Outcome.fault := by
  simp [dev_read, hp, hf, hk]

theorem dev_read_read_fail (buffer len : Nat) (env : ReadEnv) (w : World) (kb1 : KBuf)
    (hp : env.kmalloc_ptr ≠ 0) (hf : IS_ERR env.filp_ptr = false)
    (hk : kernel_read env { cap := len, mem := env.kmalloc_mem } = some kb1)
    (hb : to_int env.read_result < 0) :
    dev_read buffer len env w =
      { result := Outcome.ret (to_long (to_int env.read_result)),
        world := printk Msg.failed_read (emit (Event.kfree env.kmalloc_ptr)
          (emit (Event.filp_close env.filp_ptr)
            (emit (Event.kernel_read env.filp_ptr env.kmalloc_ptr (size_sub len 1)
                env.read_result)
              (emit (Event.filp_open env.filp_ptr)
                (emit (Event.kmalloc len env.kmalloc_ptr) w))))),
        kernel_buffer := some kb1 } := by
  simp [dev_read, hp, hf, hk, hb]

theorem dev_read_store_fault (buffer len : Nat) (env : ReadEnv) (w : World) (kb1 : KBuf)
    (hp : env.kmalloc_ptr ≠ 0) (hf : IS_ERR env.filp_ptr = false)
    (hk : kernel_read env { cap := len, mem := env.kmalloc_mem } = some kb1)
    (hb : ¬ to_int env.read_result < 0)
    (hs : store_byte kb1 (to_int env.read_result) 0 = none) :
    (dev_read buffer len env w).result = Outcome.fault := by
  simp [dev_read, hp, hf, hk, hb, hs]

theorem dev_read_copy_fault (buffer len : Nat) (env : ReadEnv) (w : World) (kb1 kb2 : KBuf)
    (hp : env.kmalloc_ptr ≠ 0) (hf : IS_ERR env.filp_ptr = false)
    (hk : kernel_read env { cap := len, mem := env.kmalloc_mem } = some kb1)
    (hb : ¬ to_int env.read_result < 0)
    (hs : store_byte kb1 (to_int env.read_result) 0 = some kb2)
    (hu : env.uncopied ≠ 0) :
    dev_read buffer len env w =
      { result := Outcome.ret (-EFAULT),
        world := emit (Event.kfree env.kmalloc_ptr)
          (copy_to_user buffer env.kmalloc_ptr kb2 (to_int env.read_result).toNat env.uncopied
            (emit (Event.store env.kmalloc_ptr (to_int env.read_result))
              (emit (Event.filp_close env.filp_ptr)
                (emit (Event.kernel_read env.filp_ptr env.kmalloc_ptr (size_sub len 1)
                    env.read_result)
                  (emit (Event.filp_open env.filp_ptr)
                    (emit (Event.kmalloc len env.kmalloc_ptr) w)))))),
        kernel_buffer := some kb2 } := by
  simp [dev_read, hp, hf, hk, hb, hs, hu]

theorem dev_read_success (buffer len : Nat) (env : ReadEnv) (w : World) (kb1 kb2 : KBuf)
    (hp : env.kmalloc_ptr ≠ 0) (hf : IS_ERR env.filp_ptr = false)
    (hk : kernel_read env { cap := len, mem := env.kmalloc_mem } = some kb1)
    (hb : ¬ to_int env.read_result < 0)
    (hs : store_byte kb1 (to_int env.read_result) 0 = some kb2)
    (hu : env.uncopied = 0) :
    dev_read buffer len env w =
      { result := Outcome.ret (to_long (to_int env.read_result)),
        world := emit (Event.kfree env.kmalloc_ptr) (printk Msg.read_data
          (copy_to_user buffer env.kmalloc_ptr kb2 (to_int env.read_result).toNat env.uncopied
            (emit (Event.store env.kmalloc_ptr (to_int env.read_result))
              (emit (Event.filp_close env.filp_ptr)
                (emit (Event.kernel_read env.filp_ptr env.kmalloc_ptr (size_sub len 1)
                    env.read_result)
                  (emit (Event.filp_open env.filp_ptr)
                    (emit (Event.kmalloc len env.kmalloc_ptr) w))))))),
        kernel_buffer := some kb2 } := by
  simp [dev_read, hp, hf, hk, hb, hs, hu]

/-! ## The read path: frame and termination -/

/-- The variables of the gate are not touched by `dev_read`. -/
theorem dev_read_frame (buffer len : Nat) (env : ReadEnv) (w : World) :
    (dev_read buffer len env w).world.device_open = w.device_open ∧
    (dev_read buffer len env w).world.my_mutex = w.my_mutex := by
  by_cases hp : env.kmalloc_ptr = 0
  · rw [dev_read_alloc_fail buffer len env w hp]; simp [emit]
  cases hf : IS_ERR env.filp_ptr
  swap
  · rw [dev_read_open_fail buffer len env w hp hf]; simp [emit, printk]
  obtain hk | ⟨kb1, hk⟩ :=
    Option.eq_none_or_eq_some (kernel_read env { cap := len, mem := env.kmalloc_mem })
  · simp [dev_read, hp, hf, hk, emit]
  by_cases hb : to_int env.read_result < 0
  · rw [dev_read_read_fail buffer len env w kb1 hp hf hk hb]; simp [emit, printk]
  obtain hs | ⟨kb2, hs⟩ := Option.eq_none_or_eq_some (store_byte kb1 (to_int env.read_result) 0)
  · simp [dev_read, hp, hf, hk, hb, hs, emit]
  by_cases hu : env.uncopied = 0
  · rw [dev_read_success buffer len env w kb1 kb2 hp hf hk hb hs hu]
    simp [emit, printk, copy_to_user]
  · rw [dev_read_copy_fault buffer len env w kb1 kb2 hp hf hk hb hs hu]
    simp [emit, printk, copy_to_user]

theorem kernel_read_fits (len : Nat) (env : ReadEnv)
    (h : env.read_result ≤ (len : Int)) :
    kernel_read env { cap := len, mem := env.kmalloc_mem } = some (filled len env) := by
  unfold kernel_read filled
  by_cases hneg : env.read_result < 0
  · have hz : env.read_result.toNat = 0 := by omega
    simp [hneg, hz]
  · have hle : env.read_result.toNat ≤ len := by omega
    simp [hneg, hle]

theorem store_byte_fits (len : Nat) (env : ReadEnv)
    (h0 : 0 ≤ to_int env.read_result) (h1 : to_int env.read_result < (len : Int)) :
    store_byte (filled len env) (to_int env.read_result) 0 = some (terminated len env) := by
  unfold store_byte terminated
  have hc : (filled len env).cap = len := rfl
  simp [hc, h0, h1]

/-- Under `ReadOK` a non-negative `bytes_read` is at most the delivered count,
hence below `len`. -/
theorem bytes_read_bound (len : Nat) (env : ReadEnv) (hok : ReadOK len env)
    (h0 : 0 ≤ to_int env.read_result) :
    0 ≤ env.read_result ∧ to_int env.read_result ≤ env.read_result ∧
      to_int env.read_result ≤ (len : Int) - 1 := by
  obtain ⟨_, _, _, herr, hcnt⟩ := hok
  unfold to_int MAX_ERRNO at *
  omega

/-- Under `ReadOK` the run of `dev_read` returns: neither store leaves the block. -/
theorem dev_read_returns (buffer len : Nat) (env : ReadEnv) (w : World)
    (hok : ReadOK len env) :
    ∃ v, (dev_read buffer len env w).result = Outcome.ret v := by
  by_cases hp : env.kmalloc_ptr = 0
  · rw [dev_read_alloc_fail buffer len env w hp]; exact ⟨_, rfl⟩
  cases hf : IS_ERR env.filp_ptr
  swap
  · rw [dev_read_open_fail buffer len env w hp hf]; exact ⟨_, rfl⟩
  have hk := kernel_read_fits len env (by have := hok.2.2.2.2; omega)
  by_cases hb : to_int env.read_result < 0
  · rw [dev_read_read_fail buffer len env w _ hp hf hk hb]; exact ⟨_, rfl⟩
  have hbd := bytes_read_bound len env hok (by omega)
  have hs := store_byte_fits len env (by omega) (by omega)
  by_cases hu : env.uncopied = 0
  · rw [dev_read_success buffer len env w _ _ hp hf hk hb hs hu]; exact ⟨_, rfl⟩
  · rw [dev_read_copy_fault buffer len env w _ _ hp hf hk hb hs hu]; exact ⟨_, rfl⟩

theorem run_reads_frame (reads : List ReadCall) :
    ∀ (w : World), (∀ c ∈ reads, ReadOK c.len c.env) →
      ∃ w2, run_reads w reads = some w2 ∧ w2.device_open = w.device_open ∧
        w2.my_mutex = w.my_mutex := by
  induction reads with
  | nil => intro w _; exact ⟨w, rfl, rfl, rfl⟩
  | cons c rest ih =>
    intro w hall
    obtain ⟨v, hv⟩ := dev_read_returns c.buffer c.len c.env w (hall c (List.mem_cons_self _ _))
    obtain ⟨hd, hm⟩ := dev_read_frame c.buffer c.len c.env w
    obtain ⟨w2, hrun, hd2, hm2⟩ :=
      ih (dev_read c.buffer c.len c.env w).world
        (fun c2 hc2 => hall c2 (List.mem_cons_of_mem _ hc2))
    refine ⟨w2, ?_, by rw [hd2, hd], by rw [hm2, hm]⟩
    simp only [run_reads, hv]
    exact hrun

/-- C3. From `device_open = 0` with the mutex free: `dev_open` returns 0; then
after any number `k` of the given `dev_read` calls (each on any of its returning
paths) the device is still held, `device_open` is 1 and a second `dev_open`
returns `-EBUSY`; `dev_release` then returns 0 and puts `device_open` back to 0,
after which `dev_open` returns 0 again.  Every `dev_read` that returns, with
any arguments and in any state, leaves `device_open` as it found it. -/
theorem open_read_release_round_trip (w : World) (reads : List ReadCall) (k : Nat)
    (h0 : w.device_open = 0) (hm : w.my_mutex = false)
    (hok : ∀ c ∈ reads, ReadOK c.len c.env) :
    (dev_open w).1 = Outcome.ret 0 ∧
    ∃ w2, run_reads (dev_open w).2 (reads.take k) = some w2 ∧
      w2.device_open = 1 ∧
      (dev_open w2).1 = Outcome.ret (-EBUSY) ∧
      (dev_open w2).2.device_open = 1 ∧
      (dev_release w2).1 = Outcome.ret 0 ∧
      (dev_release w2).2.device_open = 0 ∧
      (dev_open (dev_release w2).2).1 = Outcome.ret 0 ∧
      ∀ (buffer len : Nat) (env : ReadEnv) (w3 : World) (v : Int),
        (dev_read buffer len env w3).result = Outcome.ret v →
        (dev_read buffer len env w3).world.device_open = w3.device_open := by
  have hopen := dev_open_free w hm h0
  obtain ⟨w2, hrun, hd2, hm2⟩ := run_reads_frame (reads.take k) (dev_open w).2
    (fun c hc => hok c (List.mem_of_mem_take hc))
  have hd1 : (dev_open w).2.device_open = 1 := by rw [hopen]
  have hm1 : (dev_open w).2.my_mutex = false := by rw [hopen]
  rw [hd1] at hd2
  rw [hm1] at hm2
  have hne : w2.device_open ≠ 0 := by rw [hd2]; decide
  refine ⟨by rw [hopen], w2, hrun, hd2, ?_, ?_, ?_, ?_, ?_, ?_⟩
  · rw [dev_open_busy w2 hm2 hne]
  · rw [dev_open_busy w2 hm2 hne]; exact hd2
  · rw [dev_release_free w2 hm2]
  · rw [dev_release_free w2 hm2]; simp [hd2, to_int]
  · rw [dev_release_free w2 hm2]
    rw [dev_open_free _ rfl (by simp [hd2, to_int])]
  · intro buffer len env w3 v _
    exact (dev_read_frame buffer len env w3).1

theorem open_read_release_round_trip_witness :
    (∀ c ∈ sample_reads, ReadOK c.len c.env) ∧
    (dev_open World.initial).1 = Outcome.ret 0 ∧
    ∃ w2, run_reads (dev_open World.initial).2 (sample_reads.take 5) = some w2 ∧
      w2.device_open = 1 ∧
      (dev_open w2).1 = Outcome.ret (-EBUSY) ∧
      (dev_release w2).1 = Outcome.ret 0 ∧
      (dev_release w2).2.device_open = 0 ∧
      (dev_open (dev_release w2).2).1 = Outcome.ret 0 := by
  have hok : ∀ c ∈ sample_reads, ReadOK c.len c.env := by
    intro c hc
    simp only [sample_reads, List.mem_cons, List.mem_singleton, List.not_mem_nil, or_false] at hc
    rcases hc with rfl | rfl | rfl | rfl | rfl <;>
      simp [ReadOK, SIZE_MAX, MAX_ERRNO, ERR_PTR, env_ten, env_no_source, env_no_memory,
        env_read_error, env_copy_fault]
  obtain ⟨h1, w2, h2, h3, h4, _, h6, h7, h8, _⟩ :=
    open_read_release_round_trip World.initial sample_reads 5 rfl rfl hok
  exact ⟨hok, h1, w2, h2, h3, h4, h6, h7, h8⟩

/-! ## The read path: returned count -/

/-- The value returned on the paths that return a non-negative value. -/
theorem dev_read_nonneg (buffer len : Nat) (env : ReadEnv) (w : World) (n : Int)
    (hok : ReadOK len env)
    (hret : (dev_read buffer len env w).result = Outcome.ret n) (hn : 0 ≤ n) :
    env.kmalloc_ptr ≠ 0 ∧ IS_ERR env.filp_ptr = false ∧ 0 ≤ to_int env.read_result ∧
      env.uncopied = 0 ∧ n = to_int env.read_result := by
  by_cases hp : env.kmalloc_ptr = 0
  · rw [dev_read_alloc_fail buffer len env w hp] at hret
    simp [ENOMEM] at hret
    omega
  cases hf : IS_ERR env.filp_ptr
  swap
  · rw [dev_read_open_fail buffer len env w hp hf] at hret
    have hlt := (PTR_ERR_range env.filp_ptr hf hok.2.2.1).2
    simp at hret
    omega
  have hk := kernel_read_fits len env (by have := hok.2.2.2.2; omega)
  by_cases hb : to_int env.read_result < 0
  · rw [dev_read_read_fail buffer len env w _ hp hf hk hb] at hret
    simp [to_long_to_int] at hret
    omega
  have hbd := bytes_read_bound len env hok (by omega)
  have hs := store_byte_fits len env (by omega) (by omega)
  by_cases hu : env.uncopied = 0
  · rw [dev_read_success buffer len env w _ _ hp hf hk hb hs hu] at hret
    simp [to_long_to_int] at hret
    exact ⟨hp, rfl, by omega, hu, hret.symm⟩
  · rw [dev_read_copy_fault buffer len env w _ _ hp hf hk hb hs hu] at hret
    simp [EFAULT] at hret
    omega

theorem size_sub_one (len : Nat) (h1 : 1 ≤ len) (h2 : len ≤ SIZE_MAX) :
    size_sub len 1 = len - 1 := by
  unfold size_sub
  unfold SIZE_MAX at *
  omega

theorem to_int_env_huge : to_int env_huge.read_result = 5 := by
  simp [env_huge, env_ten, to_int]

/-- C4, the claim as stated fails: with `len = 4294967302` and a source that
delivers `4294967301` bytes (at most `len - 1`), every step of `dev_read`
succeeds and it returns 5, the count reduced to `int`, which is not the number
of bytes the source obtained. -/
theorem dev_read_count_counterexample :
    ReadOK 4294967302 env_huge ∧
    env_huge.read_result = 4294967301 ∧
    (dev_read 1000 4294967302 env_huge World.initial).result = Outcome.ret 5 ∧
    (5 : Int) ≠ env_huge.read_result := by
  have hok : ReadOK 4294967302 env_huge := by
    simp [ReadOK, SIZE_MAX, MAX_ERRNO, env_huge, env_ten]
  have hp : env_huge.kmalloc_ptr ≠ 0 := by simp [env_huge, env_ten]
  have hf : IS_ERR env_huge.filp_ptr = false := by
    simp [IS_ERR, SIZE_MAX, MAX_ERRNO, env_huge, env_ten]
  have hk := kernel_read_fits 4294967302 env_huge (by simp [env_huge, env_ten])
  have h5 := to_int_env_huge
  have hs := store_byte_fits 4294967302 env_huge (by rw [h5]; decide) (by rw [h5]; decide)
  refine ⟨hok, rfl, ?_, by simp [env_huge, env_ten]⟩
  rw [dev_read_success 1000 4294967302 env_huge World.initial _ _ hp hf hk
    (by rw [h5]; decide) hs rfl]
  simp only [h5]
  rfl

/-- C4, amended. For every `len >= 1` (any `size_t` value) and every outcome of
the source read that is an error code or delivers at most `len - 1` bytes,
whenever `dev_read` returns a non-negative `n`: `0 <= n <= len - 1`, `n` is the
value of the `int` variable `bytes_read`, `n` never exceeds the number of bytes
the source obtained, and `n` equals that number whenever it is at most
`INT_MAX`. -/
theorem dev_read_count_bound (buffer len : Nat) (env : ReadEnv) (w : World) (n : Int)
    (hok : ReadOK len env)
    (hret : (dev_read buffer len env w).result = Outcome.ret n) (hn : 0 ≤ n) :
    n ≤ (len : Int) - 1 ∧ n = to_int env.read_result ∧ 0 ≤ env.read_result ∧
      n ≤ env.read_result ∧ (env.read_result ≤ INT_MAX → n = env.read_result) := by
  obtain ⟨_, _, h0, _, hn2⟩ := dev_read_nonneg buffer len env w n hok hret hn
  obtain ⟨hr0, hle, hlen⟩ := bytes_read_bound len env hok h0
  refine ⟨by omega, hn2, hr0, by omega, ?_⟩
  intro hmax
  rw [hn2]
  exact to_int_of_range _ (by omega) (by unfold INT_MAX at hmax; omega)

theorem dev_read_count_bound_witness :
    ReadOK 64 env_ten ∧
    (dev_read 1000 64 env_ten World.initial).result = Outcome.ret 10 ∧
    (10 : Int) ≤ ((64 : Nat) : Int) - 1 ∧ (10 : Int) = env_ten.read_result := by
  have hok : ReadOK 64 env_ten := by simp [ReadOK, SIZE_MAX, MAX_ERRNO, env_ten]
  have hret : (dev_read 1000 64 env_ten World.initial).result = Outcome.ret 10 := by
    simp [dev_read, env_ten, IS_ERR, SIZE_MAX, MAX_ERRNO, kernel_read, store_byte, to_int,
      to_long]
  have h := dev_read_count_bound 1000 64 env_ten World.initial 10 hok hret (by decide)
  exact ⟨hok, hret, h.1, h.2.2.2.2 (by simp [env_ten, INT_MAX])⟩

/-! ## The read path: error propagation -/

/-- C5. For every well-formed request with `len >= 1`, `dev_read` returns, and
its result is fixed by the first step that fails: `-ENOMEM` when `kmalloc`
returns `NULL` (only the allocation is logged); the error code carried by the
pointer when `filp_open` fails (no `kernel_read` is logged); the negative code
of `kernel_read`, unchanged, when the read fails (no `copy_to_user` is logged);
`-EFAULT` when `copy_to_user` reports uncopied bytes; and a non-negative value
only if none of the four steps failed.  On the first three failure paths user
memory is left as it was. -/
theorem dev_read_error_propagation (buffer len : Nat) (env : ReadEnv) (w : World)
    (hok : ReadOK len env) :
    (∃ v, (dev_read buffer len env w).result = Outcome.ret v) ∧
    (env.kmalloc_ptr = 0 →
      (dev_read buffer len env w).result = Outcome.ret (-ENOMEM) ∧
      (dev_read buffer len env w).world.log = w.log ++ [Event.kmalloc len 0] ∧
      (dev_read buffer len env w).world.user = w.user) ∧
    (env.kmalloc_ptr ≠ 0 → IS_ERR env.filp_ptr = true →
      (dev_read buffer len env w).result = Outcome.ret (PTR_ERR env.filp_ptr) ∧
      -(MAX_ERRNO : Int) ≤ PTR_ERR env.filp_ptr ∧ PTR_ERR env.filp_ptr < 0 ∧
      (∀ e : Int, 1 ≤ e → e ≤ (MAX_ERRNO : Int) → env.filp_ptr = ERR_PTR (-e) →
        (dev_read buffer len env w).result = Outcome.ret (-e)) ∧
      (dev_read buffer len env w).world.log =
        w.log ++ [Event.kmalloc len env.kmalloc_ptr, Event.filp_open env.filp_ptr,
                  Event.kfree env.kmalloc_ptr, Event.printk Msg.failed_open] ∧
      (dev_read buffer len env w).world.user = w.user) ∧
    (env.kmalloc_ptr ≠ 0 → IS_ERR env.filp_ptr = false → env.read_result < 0 →
      (dev_read buffer len env w).result = Outcome.ret env.read_result ∧
      (dev_read buffer len env w).world.log =
        w.log ++ [Event.kmalloc len env.kmalloc_ptr, Event.filp_open env.filp_ptr,
                  Event.kernel_read env.filp_ptr env.kmalloc_ptr (len - 1) env.read_result,
                  Event.filp_close env.filp_ptr, Event.kfree env.kmalloc_ptr,
                  Event.printk Msg.failed_read] ∧
      (dev_read buffer len env w).world.user = w.user) ∧
    (env.kmalloc_ptr ≠ 0 → IS_ERR env.filp_ptr = false → 0 ≤ to_int env.read_result →
      env.uncopied ≠ 0 →
      (dev_read buffer len env w).result = Outcome.ret (-EFAULT)) ∧
    (∀ v, (dev_read buffer len env w).result = Outcome.ret v → 0 ≤ v →
      env.kmalloc_ptr ≠ 0 ∧ IS_ERR env.filp_ptr = false ∧ 0 ≤ env.read_result ∧
        env.uncopied = 0) := by
  have hk := kernel_read_fits len env (by have := hok.2.2.2.2; omega)
  have hsub := size_sub_one len hok.1 hok.2.1
  refine ⟨dev_read_returns buffer len env w hok, ?_, ?_, ?_, ?_, ?_⟩
  · intro hp
    rw [dev_read_alloc_fail buffer len env w hp]
    simp [emit, hp]
  · intro hp hf
    rw [dev_read_open_fail buffer len env w hp hf]
    have hr := PTR_ERR_range env.filp_ptr hf hok.2.2.1
    refine ⟨rfl, hr.1, hr.2, ?_, by simp [emit, printk], by simp [emit, printk]⟩
    intro e h1 h2 he
    rw [he, (PTR_ERR_ERR_PTR e h1 h2).2.1]
  · intro hp hf hneg
    have hti : to_int env.read_result = env.read_result := by
      have := hok.2.2.2.1
      unfold MAX_ERRNO at this
      exact to_int_of_range _ (by omega) (by omega)
    rw [dev_read_read_fail buffer len env w _ hp hf hk (by rw [hti]; exact hneg)]
    refine ⟨?_, by simp [emit, printk, hsub], by simp [emit, printk]⟩
    rw [to_long_to_int, hti]
  · intro hp hf h0 hu
    have hbd := bytes_read_bound len env hok h0
    have hs := store_byte_fits len env h0 (by omega)
    rw [dev_read_copy_fault buffer len env w _ _ hp hf hk (by omega) hs hu]
  · intro v hv h0
    obtain ⟨hp, hf, hb, hu, _⟩ := dev_read_nonneg buffer len env w v hok hv h0
    exact ⟨hp, hf, (bytes_read_bound len env hok hb).1, hu⟩

theorem dev_read_error_propagation_witness :
    ReadOK 64 env_no_source ∧
    (dev_read 1000 64 env_no_source World.initial).result = Outcome.ret (-2) ∧
    (dev_read 1000 64 env_no_source World.initial).world.user = World.initial.user := by
  have hok : ReadOK 64 env_no_source := by
    simp [ReadOK, SIZE_MAX, MAX_ERRNO, ERR_PTR, env_no_source, env_ten]
  have hp : env_no_source.kmalloc_ptr ≠ 0 := by simp [env_no_source, env_ten]
  have hf : IS_ERR env_no_source.filp_ptr = true :=
    (PTR_ERR_ERR_PTR 2 (by decide) (by decide)).1
  have h := (dev_read_error_propagation 1000 64 env_no_source World.initial hok).2.2.1 hp hf
  exact ⟨hok, h.2.2.2.1 2 (by decide) (by decide) rfl, h.2.2.2.2.2⟩

/-! ## The read path: resources -/

/-- C6. On every path of `dev_read` that returns (every path of a well-formed
request with `len >= 1` does) the calls it logged (`evs`) are balanced: the
allocation comes first; a block that was allocated is freed exactly once and
nothing else is freed; a file that was opened is closed exactly once and
nothing else is closed; and when the file was opened it is closed right after
`kernel_read`, before any step that depends on the read result. -/
theorem dev_read_resource_balance (buffer len : Nat) (env : ReadEnv) (w : World)
    (h : ReadOK len env ∨ ∃ v, (dev_read buffer len env w).result = Outcome.ret v) :
    ∃ evs : List Event,
      (dev_read buffer len env w).world.log = w.log ++ evs ∧
      (∃ v, (dev_read buffer len env w).result = Outcome.ret v) ∧
      evs.head? = some (Event.kmalloc len env.kmalloc_ptr) ∧
      evs.filter is_kmalloc = [Event.kmalloc len env.kmalloc_ptr] ∧
      evs.filter is_kfree =
        (if env.kmalloc_ptr = 0 then [] else [Event.kfree env.kmalloc_ptr]) ∧
      evs.filter is_filp_open =
        (if env.kmalloc_ptr = 0 then [] else [Event.filp_open env.filp_ptr]) ∧
      evs.filter is_filp_close =
        (if env.kmalloc_ptr = 0 ∨ IS_ERR env.filp_ptr = true then []
         else [Event.filp_close env.filp_ptr]) ∧
      (env.kmalloc_ptr ≠ 0 → IS_ERR env.filp_ptr = false →
        ∃ rest, evs =
          [Event.kmalloc len env.kmalloc_ptr, Event.filp_open env.filp_ptr,
           Event.kernel_read env.filp_ptr env.kmalloc_ptr (size_sub len 1) env.read_result,
           Event.filp_close env.filp_ptr] ++ rest) := by
  have hret : ∃ v, (dev_read buffer len env w).result = Outcome.ret v := by
    rcases h with hok | hret
    · exact dev_read_returns buffer len env w hok
    · exact hret
  by_cases hp : env.kmalloc_ptr = 0
  · refine ⟨[Event.kmalloc len env.kmalloc_ptr], ?_, hret, rfl, rfl, ?_, ?_, ?_, ?_⟩
    · rw [dev_read_alloc_fail buffer len env w hp]; simp [emit]
    · simp [hp, is_kfree]
    · simp [hp, is_filp_open]
    · simp [hp, is_filp_close]
    · intro h; exact absurd hp h
  cases hf : IS_ERR env.filp_ptr
  swap
  · refine ⟨[Event.kmalloc len env.kmalloc_ptr, Event.filp_open env.filp_ptr,
        Event.kfree env.kmalloc_ptr, Event.printk Msg.failed_open], ?_, hret, rfl, ?_, ?_, ?_,
        ?_, ?_⟩
    · rw [dev_read_open_fail buffer len env w hp hf]; simp [emit, printk]
    · simp [is_kmalloc]
    · simp [hp, is_kfree]
    · simp [hp, is_filp_open]
    · simp [is_filp_close]
    · intro _ h; simp at h
  obtain hk | ⟨kb1, hk⟩ :=
    Option.eq_none_or_eq_some (kernel_read env { cap := len, mem := env.kmalloc_mem })
  · obtain ⟨v, hv⟩ := hret
    rw [dev_read_overrun buffer len env w hp hf hk] at hv
    exact absurd hv (by simp)
  by_cases hb : to_int env.read_result < 0
  · refine ⟨[Event.kmalloc len env.kmalloc_ptr, Event.filp_open env.filp_ptr,
        Event.kernel_read env.filp_ptr env.kmalloc_ptr (size_sub len 1) env.read_result,
        Event.filp_close env.filp_ptr, Event.kfree env.kmalloc_ptr,
        Event.printk Msg.failed_read], ?_, hret, rfl, ?_, ?_, ?_, ?_, ?_⟩
    · rw [dev_read_read_fail buffer len env w _ hp hf hk hb]; simp [emit, printk]
    · simp [is_kmalloc]
    · simp [hp, is_kfree]
    · simp [hp, is_filp_open]
    · simp [hp, is_filp_close]
    · intro _ _; exact ⟨_, rfl⟩
  obtain hs | ⟨kb2, hs⟩ :=
    Option.eq_none_or_eq_some (store_byte kb1 (to_int env.read_result) 0)
  · obtain ⟨v, hv⟩ := hret
    rw [dev_read_store_fault buffer len env w kb1 hp hf hk hb hs] at hv
    exact absurd hv (by simp)
  by_cases hu : env.uncopied = 0
  · refine ⟨[Event.kmalloc len env.kmalloc_ptr, Event.filp_open env.filp_ptr,
        Event.kernel_read env.filp_ptr env.kmalloc_ptr (size_sub len 1) env.read_result,
        Event.filp_close env.filp_ptr,
        Event.store env.kmalloc_ptr (to_int env.read_result),
        Event.copy_to_user buffer env.kmalloc_ptr (to_int env.read_result).toNat env.uncopied,
        Event.printk Msg.read_data, Event.kfree env.kmalloc_ptr], ?_, hret, rfl, ?_, ?_, ?_,
        ?_, ?_⟩
    · rw [dev_read_success buffer len env w _ _ hp hf hk hb hs hu]
      simp [emit, printk, copy_to_user]
    · simp [is_kmalloc]
    · simp [hp, is_kfree]
    · simp [hp, is_filp_open]
    · simp [hp, is_filp_close]
    · intro _ _; exact ⟨_, rfl⟩
  · refine ⟨[Event.kmalloc len env.kmalloc_ptr, Event.filp_open env.filp_ptr,
        Event.kernel_read env.filp_ptr env.kmalloc_ptr (size_sub len 1) env.read_result,
        Event.filp_close env.filp_ptr,
        Event.store env.kmalloc_ptr (to_int env.read_result),
        Event.copy_to_user buffer env.kmalloc_ptr (to_int env.read_result).toNat env.uncopied,
        Event.kfree env.kmalloc_ptr], ?_, hret, rfl, ?_, ?_, ?_, ?_, ?_⟩
    · rw [dev_read_copy_fault buffer len env w _ _ hp hf hk hb hs hu]
      simp [emit, copy_to_user]
    · simp [is_kmalloc]
    · simp [hp, is_kfree]
    · simp [hp, is_filp_open]
    · simp [hp, is_filp_close]
    · intro _ _; exact ⟨_, rfl⟩

theorem dev_read_resource_balance_witness :
    ReadOK 64 env_copy_fault ∧
    ∃ evs : List Event,
      (dev_read 1000 64 env_copy_fault World.initial).world.log = World.initial.log ++ evs ∧
      (dev_read 1000 64 env_copy_fault World.initial).result = Outcome.ret (-EFAULT) ∧
      evs.filter is_kfree = [Event.kfree 4096] ∧
      evs.filter is_filp_close = [Event.filp_close 8192] := by
  have hok : ReadOK 64 env_copy_fault := by
    simp [ReadOK, SIZE_MAX, MAX_ERRNO, env_copy_fault, env_ten]
  obtain ⟨evs, h1, _, _, _, h5, _, h7, _⟩ :=
    dev_read_resource_balance 1000 64 env_copy_fault World.initial (Or.inl hok)
  refine ⟨hok, evs, h1, ?_, ?_, ?_⟩
  · simp [dev_read, env_copy_fault, env_ten, IS_ERR, SIZE_MAX, MAX_ERRNO, kernel_read,
      store_byte, to_int]
  · rw [h5]; simp [env_copy_fault, env_ten]
  · rw [h7]; simp [env_copy_fault, env_ten, IS_ERR, SIZE_MAX, MAX_ERRNO]

/-! ## The read path: zero length -/

/-- With `len = 0` the run never returns 0: it returns a negative code or
stores outside the empty block; and `kmalloc(0)` is always called first. -/
theorem dev_read_zero_never_zero (buffer : Nat) (env : ReadEnv) (w : World)
    (hptr : env.filp_ptr ≤ SIZE_MAX) :
    (dev_read buffer 0 env w).result ≠ Outcome.ret 0 ∧
    (dev_read buffer 0 env w).world.log.take (w.log.length + 1) =
      w.log ++ [Event.kmalloc 0 env.kmalloc_ptr] := by
  by_cases hp : env.kmalloc_ptr = 0
  · rw [dev_read_alloc_fail buffer 0 env w hp]
    simp [emit, ENOMEM, List.take_append_eq_append_take]
  cases hf : IS_ERR env.filp_ptr
  swap
  · rw [dev_read_open_fail buffer 0 env w hp hf]
    have hlt := (PTR_ERR_range env.filp_ptr hf hptr).2
    refine ⟨?_, by simp [emit, printk, List.take_append_eq_append_take]⟩
    simp only [ne_eq, Outcome.ret.injEq]
    omega
  obtain hk | ⟨kb1, hk⟩ :=
    Option.eq_none_or_eq_some (kernel_read env { cap := 0, mem := env.kmalloc_mem })
  · simp [dev_read, hp, hf, hk, emit, List.take_append_eq_append_take]
  have hcap : kb1.cap = 0 := by
    unfold kernel_read at hk
    split_ifs at hk <;> simp at hk <;> rw [← hk]
  by_cases hb : to_int env.read_result < 0
  · rw [dev_read_read_fail buffer 0 env w kb1 hp hf hk hb]
    refine ⟨?_, by simp [emit, printk, List.take_append_eq_append_take]⟩
    rw [to_long_to_int]
    simp only [ne_eq, Outcome.ret.injEq]
    omega
  have hs : store_byte kb1 (to_int env.read_result) 0 = none := by
    unfold store_byte
    rw [hcap]
    simp
  simp [dev_read, hp, hf, hk, hb, hs, emit, List.take_append_eq_append_take]

/-- C7, the code at `len = 0`. When every kernel call succeeds and the source
delivers nothing, `dev_read` calls `kmalloc(0)`, asks the source for
`SIZE_MAX` bytes (`len - 1` in `size_t`) and stores the terminator at index 0
of a block of 0 bytes; when `kmalloc` fails it returns `-ENOMEM`, when the
source read fails it returns that error. -/
theorem dev_read_zero_length :
    (dev_read 1000 0 env_empty World.initial).result = Outcome.fault ∧
    (dev_read 1000 0 env_empty World.initial).world.log =
      [Event.kmalloc 0 4096, Event.filp_open 8192,
       Event.kernel_read 8192 4096 18446744073709551615 0, Event.filp_close 8192] ∧
    (dev_read 1000 0 env_no_memory World.initial).result = Outcome.ret (-12) ∧
    (dev_read 1000 0 env_read_error World.initial).result = Outcome.ret (-5) := by
  refine ⟨?_, ?_, ?_, ?_⟩
  · simp [dev_read, env_empty, env_ten, IS_ERR, SIZE_MAX, MAX_ERRNO, kernel_read, store_byte,
      to_int]
  · simp [dev_read, env_empty, env_ten, IS_ERR, SIZE_MAX, MAX_ERRNO, kernel_read, store_byte,
      to_int, emit, size_sub, World.initial]
  · simp [dev_read, env_no_memory, env_ten, ENOMEM]
  · simp [dev_read, env_read_error, env_ten, IS_ERR, SIZE_MAX, MAX_ERRNO, kernel_read,
      to_int, to_long]

/-! ## The read path: the terminator and the copy to the caller -/

/-- The state of a run that reached the terminator store: the block at the end
of the run and user memory after `copy_to_user`. -/
theorem dev_read_after_store (buffer len : Nat) (env : ReadEnv) (w : World)
    (hok : ReadOK len env) (hp : env.kmalloc_ptr ≠ 0) (hf : IS_ERR env.filp_ptr = false)
    (hidx : 0 ≤ to_int env.read_result) :
    (dev_read buffer len env w).kernel_buffer = some (terminated len env) ∧
    (dev_read buffer len env w).world.user =
      (fun a => if buffer ≤ a ∧ a < buffer + ((to_int env.read_result).toNat - env.uncopied)
        then (terminated len env).mem (a - buffer) else w.user a) ∧
    (dev_read buffer len env w).result =
      (if env.uncopied = 0 then Outcome.ret (to_int env.read_result)
       else Outcome.ret (-EFAULT)) := by
  have hk := kernel_read_fits len env (by have := hok.2.2.2.2; omega)
  have hbd := bytes_read_bound len env hok hidx
  have hs := store_byte_fits len env hidx (by omega)
  by_cases hu : env.uncopied = 0
  · rw [dev_read_success buffer len env w _ _ hp hf hk (by omega) hs hu]
    simp [emit, printk, copy_to_user, hu, to_long_to_int]
  · rw [dev_read_copy_fault buffer len env w _ _ hp hf hk (by omega) hs hu]
    simp [emit, copy_to_user, hu]

/-- The block after the terminator store: the first `bytes_read` bytes are the
source bytes in order, the next byte is zero. -/
theorem terminated_contents (len : Nat) (env : ReadEnv) (hok : ReadOK len env)
    (hidx : 0 ≤ to_int env.read_result) :
    (terminated len env).cap = len ∧
    (∀ i : Nat, (i : Int) < to_int env.read_result →
      (terminated len env).mem i = env.read_data i) ∧
    (terminated len env).mem (to_int env.read_result).toNat = 0 := by
  have hbd := bytes_read_bound len env hok hidx
  refine ⟨rfl, ?_, by simp [terminated]⟩
  intro i hi
  have h1 : i ≠ (to_int env.read_result).toNat := by omega
  have h2 : i < env.read_result.toNat := by omega
  simp only [terminated, filled]
  rw [if_neg h1, if_pos h2]

/-- C8. For every well-formed request with `len >= 1`: when `dev_read` returns
a non-negative `n`, the `n` bytes of user memory starting at `buffer` are, in
order, the first `n` bytes the source placed in the kernel block, and every
other byte of user memory (in particular those at index `n` and beyond) is as
it was; and when allocation and open succeed and the source delivers zero
bytes, `dev_read` returns 0 and leaves user memory as it was. -/
theorem relay_fidelity (buffer len : Nat) (env : ReadEnv) (w : World)
    (hok : ReadOK len env) :
    (∀ n : Int, (dev_read buffer len env w).result = Outcome.ret n → 0 ≤ n →
      (∀ i : Nat, (i : Int) < n →
        (dev_read buffer len env w).world.user (buffer + i) = env.read_data i) ∧
      (∀ a : Nat, (a < buffer ∨ (buffer : Int) + n ≤ (a : Int)) →
        (dev_read buffer len env w).world.user a = w.user a)) ∧
    (env.kmalloc_ptr ≠ 0 → IS_ERR env.filp_ptr = false → env.read_result = 0 →
      env.uncopied ≤ (to_int env.read_result).toNat →
      (dev_read buffer len env w).result = Outcome.ret 0 ∧
      (dev_read buffer len env w).world.user = w.user) := by
  constructor
  · intro n hret hn
    obtain ⟨hp, hf, hidx, hu, hn2⟩ := dev_read_nonneg buffer len env w n hok hret hn
    obtain ⟨_, huser, _⟩ := dev_read_after_store buffer len env w hok hp hf hidx
    obtain ⟨_, hdata, _⟩ := terminated_contents len env hok hidx
    rw [huser, hu]
    constructor
    · intro i hi
      have hc : buffer ≤ buffer + i ∧ buffer + i < buffer + ((to_int env.read_result).toNat - 0) := by
        omega
      simp only [hc, and_self, if_true, Nat.add_sub_cancel_left]
      exact hdata i (by omega)
    · intro a ha
      have hc : ¬ (buffer ≤ a ∧ a < buffer + ((to_int env.read_result).toNat - 0)) := by
        omega
      simp only [hc, if_false]
  · intro hp hf hz hu
    have hti : to_int env.read_result = 0 := by rw [hz]; rfl
    have hu0 : env.uncopied = 0 := by rw [hti] at hu; simpa using hu
    obtain ⟨_, huser, hres⟩ :=
      dev_read_after_store buffer len env w hok hp hf (by rw [hti])
    refine ⟨by rw [hres, hti]; simp [hu0], ?_⟩
    rw [huser, hti]
    funext a
    have hc : ¬ (buffer ≤ a ∧ a < buffer + ((0 : Int).toNat - env.uncopied)) := by
      simp
    simp only [hc, if_false]

theorem relay_fidelity_witness :
    ReadOK 64 env_ten ∧
    (dev_read 1000 64 env_ten World.initial).result = Outcome.ret 10 ∧
    (dev_read 1000 64 env_ten World.initial).world.user (1000 + 9) = 74 ∧
    (dev_read 1000 64 env_ten World.initial).world.user 1010 = 0 := by
  have hok : ReadOK 64 env_ten := by simp [ReadOK, SIZE_MAX, MAX_ERRNO, env_ten]
  have hret : (dev_read 1000 64 env_ten World.initial).result = Outcome.ret 10 := by
    simp [dev_read, env_ten, IS_ERR, SIZE_MAX, MAX_ERRNO, kernel_read, store_byte, to_int,
      to_long]
  have h := (relay_fidelity 1000 64 env_ten World.initial hok).1 10 hret (by decide)
  refine ⟨hok, hret, ?_, ?_⟩
  · rw [h.1 9 (by decide)]; rfl
  · rw [h.2 1010 (Or.inr (by decide))]; rfl

/-- C9, the claim as stated fails at two source results `r` with
`0 <= r <= len - 1`.  With `len = 2147483650` and `r = 2147483648`,
`bytes_read` is `-2147483648`: `dev_read` takes the read-failure path, stores no
terminator (the byte at index `r` is still what `kmalloc` left, 170) and returns
`-2147483648`.  With `len = 4294967302` and `r = 4294967301`, `bytes_read` is 5:
the zero byte is stored at index 5, over the sixth source byte (70), and the
byte at index `r` is still 170; the block does not hold `r` source bytes
followed by a zero byte. -/
theorem terminator_counterexample :
    (ReadOK 2147483650 env_two_gib ∧ env_two_gib.read_result = 2147483648 ∧
      (dev_read 1000 2147483650 env_two_gib World.initial).result =
        Outcome.ret (-2147483648) ∧
      (dev_read 1000 2147483650 env_two_gib World.initial).world.log =
        [Event.kmalloc 2147483650 4096, Event.filp_open 8192,
         Event.kernel_read 8192 4096 2147483649 2147483648, Event.filp_close 8192,
         Event.kfree 4096, Event.printk Msg.failed_read] ∧
      (dev_read 1000 2147483650 env_two_gib World.initial).kernel_buffer =
        some (filled 2147483650 env_two_gib) ∧
      (filled 2147483650 env_two_gib).mem 2147483648 = 170) ∧
    (ReadOK 4294967302 env_huge ∧ env_huge.read_result = 4294967301 ∧
      (dev_read 1000 4294967302 env_huge World.initial).kernel_buffer =
        some (terminated 4294967302 env_huge) ∧
      Event.store 4096 5 ∈ (dev_read 1000 4294967302 env_huge World.initial).world.log ∧
      (terminated 4294967302 env_huge).mem 5 = 0 ∧
      env_huge.read_data 5 = 70 ∧
      (terminated 4294967302 env_huge).mem 4294967301 = 170) := by
  constructor
  · have hok : ReadOK 2147483650 env_two_gib := by
      simp [ReadOK, SIZE_MAX, MAX_ERRNO, env_two_gib, env_ten]
    have hp : env_two_gib.kmalloc_ptr ≠ 0 := by simp [env_two_gib, env_ten]
    have hf : IS_ERR env_two_gib.filp_ptr = false := by
      simp [IS_ERR, SIZE_MAX, MAX_ERRNO, env_two_gib, env_ten]
    have hk := kernel_read_fits 2147483650 env_two_gib (by simp [env_two_gib, env_ten])
    have hti : to_int env_two_gib.read_result = -2147483648 := by
      simp [env_two_gib, env_ten, to_int]
    have hsub : size_sub 2147483650 1 = 2147483649 := by
      simp [size_sub, SIZE_MAX]
    refine ⟨hok, rfl, ?_, ?_, ?_, ?_⟩
    · rw [dev_read_read_fail 1000 2147483650 env_two_gib World.initial _ hp hf hk
        (by rw [hti]; decide)]
      simp only [hti, to_long]
      rfl
    · rw [dev_read_read_fail 1000 2147483650 env_two_gib World.initial _ hp hf hk
        (by rw [hti]; decide)]
      simp [emit, printk, hsub, World.initial, env_two_gib, env_ten]
    · rw [dev_read_read_fail 1000 2147483650 env_two_gib World.initial _ hp hf hk
        (by rw [hti]; decide)]
    · simp [filled, env_two_gib, env_ten]
  · have hok : ReadOK 4294967302 env_huge := by
      simp [ReadOK, SIZE_MAX, MAX_ERRNO, env_huge, env_ten]
    have hp : env_huge.kmalloc_ptr ≠ 0 := by simp [env_huge, env_ten]
    have hf : IS_ERR env_huge.filp_ptr = false := by
      simp [IS_ERR, SIZE_MAX, MAX_ERRNO, env_huge, env_ten]
    have hk := kernel_read_fits 4294967302 env_huge (by simp [env_huge, env_ten])
    have h5 := to_int_env_huge
    have hs := store_byte_fits 4294967302 env_huge (by rw [h5]; decide) (by rw [h5]; decide)
    refine ⟨hok, rfl, ?_, ?_, ?_, ?_, ?_⟩
    · rw [dev_read_success 1000 4294967302 env_huge World.initial _ _ hp hf hk
        (by rw [h5]; decide) hs rfl]
    · rw [dev_read_success 1000 4294967302 env_huge World.initial _ _ hp hf hk
        (by rw [h5]; decide) hs rfl]
      simp only [h5]
      simp [emit, printk, copy_to_user, env_huge, env_ten]
    · simp [terminated, h5]
    · simp [env_huge, env_ten]
    · simp only [terminated, filled, h5]
      simp [env_huge, env_ten]

/-- C9, amended. For every well-formed request with `len >= 1` in which
allocation and open succeed and the source read result `r` satisfies
`0 <= r <= len - 1`: the run never stores outside the block; whenever
`dev_read` executes the store `kernel_buffer[bytes_read] = 0` (`bytes_read`,
the result converted to `int`, is non-negative), its index is strictly below
`len`, the store stays inside the block (the out-of-bounds branch of the indexed
store is not taken), and the block then holds `bytes_read` source bytes (at most
`len - 1`) immediately followed by a zero byte; and whenever `r` is at most
`INT_MAX` the store is executed with `bytes_read = r`, so the block holds `r`
source bytes immediately followed by a zero byte. -/
theorem terminator_in_bounds (buffer len : Nat) (env : ReadEnv) (w : World)
    (hok : ReadOK len env) (hp : env.kmalloc_ptr ≠ 0) (hf : IS_ERR env.filp_ptr = false)
    (h0 : 0 ≤ env.read_result) :
    env.read_result ≤ (len : Int) - 1 ∧
    (dev_read buffer len env w).result ≠ Outcome.fault ∧
    kernel_read env { cap := len, mem := env.kmalloc_mem } = some (filled len env) ∧
    (0 ≤ to_int env.read_result →
      to_int env.read_result < (len : Int) ∧
      to_int env.read_result ≤ (len : Int) - 1 ∧
      store_byte (filled len env) (to_int env.read_result) 0 = some (terminated len env) ∧
      Event.store env.kmalloc_ptr (to_int env.read_result) ∈
        (dev_read buffer len env w).world.log ∧
      (dev_read buffer len env w).kernel_buffer = some (terminated len env) ∧
      (terminated len env).cap = len ∧
      (∀ i : Nat, (i : Int) < to_int env.read_result →
        (terminated len env).mem i = env.read_data i) ∧
      (terminated len env).mem (to_int env.read_result).toNat = 0) ∧
    (env.read_result ≤ INT_MAX →
      to_int env.read_result = env.read_result ∧
      env.read_result < (len : Int) ∧
      store_byte (filled len env) env.read_result 0 = some (terminated len env) ∧
      Event.store env.kmalloc_ptr env.read_result ∈ (dev_read buffer len env w).world.log ∧
      (dev_read buffer len env w).kernel_buffer = some (terminated len env) ∧
      (terminated len env).cap = len ∧
      (∀ i : Nat, (i : Int) < env.read_result →
        (terminated len env).mem i = env.read_data i) ∧
      (terminated len env).mem env.read_result.toNat = 0) := by
  have hk := kernel_read_fits len env (by have := hok.2.2.2.2; omega)
  have hgen : 0 ≤ to_int env.read_result →
      to_int env.read_result < (len : Int) ∧
      to_int env.read_result ≤ (len : Int) - 1 ∧
      store_byte (filled len env) (to_int env.read_result) 0 = some (terminated len env) ∧
      Event.store env.kmalloc_ptr (to_int env.read_result) ∈
        (dev_read buffer len env w).world.log ∧
      (dev_read buffer len env w).kernel_buffer = some (terminated len env) ∧
      (terminated len env).cap = len ∧
      (∀ i : Nat, (i : Int) < to_int env.read_result →
        (terminated len env).mem i = env.read_data i) ∧
      (terminated len env).mem (to_int env.read_result).toNat = 0 := by
    intro hidx
    have hbd := bytes_read_bound len env hok hidx
    have hs := store_byte_fits len env hidx (by omega)
    obtain ⟨hkb, _, _⟩ := dev_read_after_store buffer len env w hok hp hf hidx
    obtain ⟨hcap, hdata, hzero⟩ := terminated_contents len env hok hidx
    refine ⟨by omega, hbd.2.2, hs, ?_, hkb, hcap, hdata, hzero⟩
    by_cases hu : env.uncopied = 0
    · rw [dev_read_success buffer len env w _ _ hp hf hk (by omega) hs hu]
      simp [emit, printk, copy_to_user]
    · rw [dev_read_copy_fault buffer len env w _ _ hp hf hk (by omega) hs hu]
      simp [emit, copy_to_user]
  refine ⟨hok.2.2.2.2, ?_, hk, hgen, ?_⟩
  · obtain ⟨v, hv⟩ := dev_read_returns buffer len env w hok
    rw [hv]; simp
  · intro hmax
    have hti : to_int env.read_result = env.read_result :=
      to_int_of_range _ (by omega) (by unfold INT_MAX at hmax; omega)
    have hg := hgen (by rw [hti]; exact h0)
    rw [hti] at hg
    exact ⟨hti, hg.1, hg.2.2⟩

theorem terminator_in_bounds_witness :
    ReadOK 64 env_ten ∧
    (0 : Int) ≤ env_ten.read_result ∧ env_ten.read_result ≤ INT_MAX ∧
    store_byte (filled 64 env_ten) 10 0 = some (terminated 64 env_ten) ∧
    Event.store 4096 10 ∈ (dev_read 1000 64 env_ten World.initial).world.log ∧
    (terminated 64 env_ten).mem 9 = 74 ∧
    (terminated 64 env_ten).mem 10 = 0 := by
  have hok : ReadOK 64 env_ten := by simp [ReadOK, SIZE_MAX, MAX_ERRNO, env_ten]
  have hp : env_ten.kmalloc_ptr ≠ 0 := by simp [env_ten]
  have hf : IS_ERR env_ten.filp_ptr = false := by
    simp [IS_ERR, SIZE_MAX, MAX_ERRNO, env_ten]
  have h0 : (0 : Int) ≤ env_ten.read_result := by simp [env_ten]
  have hmax : env_ten.read_result ≤ INT_MAX := by simp [env_ten, INT_MAX]
  have hr : env_ten.read_result = 10 := rfl
  obtain ⟨_, _, hs, hlog, _, _, hdata, hzero⟩ :=
    (terminator_in_bounds 1000 64 env_ten World.initial hok hp hf h0).2.2.2.2 hmax
  rw [hr] at hs hlog hzero
  refine ⟨hok, h0, hmax, hs, hlog, ?_, hzero⟩
  rw [hdata 9 (by rw [hr]; decide)]
  rfl

/-! ## Module initialisation -/

/-- What `usb_reader_init` returns for well-formed kernel answers: 0 exactly
when the four steps succeed; the negated result of `usb_register` when that
step fails (a positive value); the negative code of the step itself when one of
the other three steps fails. -/
theorem usb_reader_init_result (env : InitEnv) (w : World) (hok : InitOK env) :
    ((usb_reader_init env w).1 = 0 ↔
      env.usb_register = 0 ∧ 0 ≤ env.register_chrdev ∧ IS_ERR env.class_create = false ∧
        IS_ERR env.device_create = false) ∧
    (env.usb_register ≠ 0 →
      (usb_reader_init env w).1 = -env.usb_register ∧ 0 < (usb_reader_init env w).1) ∧
    (env.usb_register = 0 → env.register_chrdev < 0 →
      (usb_reader_init env w).1 = env.register_chrdev) ∧
    (env.usb_register = 0 → 0 ≤ env.register_chrdev → IS_ERR env.class_create = true →
      (usb_reader_init env w).1 = PTR_ERR env.class_create ∧
        (usb_reader_init env w).1 < 0) ∧
    (env.usb_register = 0 → 0 ≤ env.register_chrdev → IS_ERR env.class_create = false →
      IS_ERR env.device_create = true →
      (usb_reader_init env w).1 = PTR_ERR env.device_create ∧
        (usb_reader_init env w).1 < 0) := by
  obtain ⟨hr1, hr2, hm1, hm2, hc, hd⟩ := hok
  unfold MAX_ERRNO at hr1 hm1
  by_cases h1 : env.usb_register = 0
  swap
  · have hv : (usb_reader_init env w).1 = -env.usb_register := by
      simp only [usb_reader_init, ne_eq, h1, not_false_eq_true, if_true]
      exact to_int_of_range _ (by omega) (by omega)
    refine ⟨?_, fun _ => ⟨hv, by omega⟩, fun h => absurd h h1, fun h => absurd h h1,
      fun h => absurd h h1⟩
    constructor
    · intro h0; omega
    · intro h; exact absurd h.1 h1
  by_cases h2 : env.register_chrdev < 0
  · have hv : (usb_reader_init env w).1 = env.register_chrdev := by
      simp [usb_reader_init, h1, h2, emit, printk]
    refine ⟨?_, fun h => absurd h1 h, fun _ _ => hv, fun _ h => by omega, fun _ h => by omega⟩
    constructor
    · intro h0; omega
    · intro h; omega
  cases h3 : IS_ERR env.class_create
  swap
  · have hrange := PTR_ERR_range env.class_create h3 hc
    have hv : (usb_reader_init env w).1 = PTR_ERR env.class_create := by
      simp only [usb_reader_init, h1, h2, emit, h3, ne_eq, not_true_eq_false, if_false, if_true]
      exact to_int_of_range _ (by unfold MAX_ERRNO at hrange; omega) (by omega)
    refine ⟨?_, fun h => absurd h1 h, fun _ h => absurd h h2, fun _ _ _ => ⟨hv, by omega⟩,
      fun _ _ h => by simp at h⟩
    constructor
    · intro h0; omega
    · intro h; simp at h
  cases h4 : IS_ERR env.device_create
  swap
  · have hrange := PTR_ERR_range env.device_create h4 hd
    have hv : (usb_reader_init env w).1 = PTR_ERR env.device_create := by
      simp only [usb_reader_init, h1, h2, emit, h3, h4, ne_eq, not_true_eq_false, if_false,
        if_true, Bool.false_eq_true]
      exact to_int_of_range _ (by unfold MAX_ERRNO at hrange; omega) (by omega)
    refine ⟨?_, fun h => absurd h1 h, fun _ h => absurd h h2, fun _ _ h => by simp at h,
      fun _ _ _ _ => ⟨hv, by omega⟩⟩
    constructor
    · intro h0; omega
    · intro h; simp at h
  · have hv : (usb_reader_init env w).1 = 0 := by
      simp [usb_reader_init, h1, h2, emit, h3, h4]
    refine ⟨?_, fun h => absurd h1 h, fun _ h => absurd h h2, fun _ _ h => by simp at h,
      fun _ _ _ h => by simp at h⟩
    constructor
    · intro _; exact ⟨h1, by omega, rfl, rfl⟩
    · intro _; exact hv

/-- C10, the code when `usb_register` fails with `-ENODEV` (`-19`):
`usb_reader_init` returns `19`, which is neither the error code of the step
nor negative; no later step is run. -/
theorem usb_reader_init_no_device :
    init_env_no_device.usb_register = -19 ∧
    (usb_reader_init init_env_no_device World.initial).1 = 19 ∧
    (usb_reader_init init_env_no_device World.initial).2.log =
      [Event.printk Msg.init_function, Event.usb_register (-19),
       Event.printk Msg.register_error] := by
  refine ⟨by simp [init_env_no_device, ENODEV], ?_, ?_⟩
  · simp [usb_reader_init, init_env_no_device, init_env_ok, ENODEV, to_int]
  · simp [usb_reader_init, init_env_no_device, init_env_ok, ENODEV, emit, printk,
      World.initial]

end CustomUSBReader
